import Mathlib

/-!
Shallow embedding of the GPU orchestration core of the boids renderer
(src/mipmaps.rs, src/bind_group.rs, src/graphics.rs, src/lib.rs), with
theorems checking the natural-language specification against the code.

Machine integers (u32) stay well below 2^32 in every operation modelled
here (no arithmetic that can wrap is performed on them), so they are
embedded as Nat.
-/

namespace Boids

/-! ### Mipmap generation (src/mipmaps.rs) -/

/-- Fuel-based executable embedding of Rust `u32::ilog2` (floor of log2).
The fuel argument only bounds recursion depth; `ilog2` below instantiates
it with `n` itself, which always suffices. Rust `ilog2` panics on 0; the
model returns 0 there and all claims restrict to positive dimensions. -/
def ilog2Aux (fuel : Nat) (n : Nat) : Nat :=
  match fuel with
  | 0 => 0
  | fuel + 1 => if n < 2 then 0 else ilog2Aux fuel (n / 2) + 1

/-- Embedding of Rust `u32::ilog2`. -/
def ilog2 (n : Nat) : Nat := ilog2Aux n n

/-- Embedding of `let mip_level_count = 1 + max(size.width, size.height).ilog2()`
in `generate_mipmaps` (src/mipmaps.rs line 50). -/
def mip_level_count (w h : Nat) : Nat := 1 + ilog2 (max w h)

/-- Embedding of `wgpu::Color` (double components are exact small integers
in this program: only BLACK = (0,0,0,1) occurs). -/
structure GColor where
  r : Int
  g : Int
  b : Int
  a : Int
deriving DecidableEq, Repr

def GColor.BLACK : GColor := ⟨0, 0, 0, 1⟩

/-- Embedding of `wgpu::LoadOp<Color>` as used on the blit color attachment. -/
inductive GLoadOp where
  | clear (c : GColor)
  | load
deriving DecidableEq, Repr

/-- One blit render pass recorded by `generate_mipmaps`: it binds the view of
`srcLevel` for sampling, attaches the view of `dstLevel` with the given load
op, and draws vertices `0..4` of instance range `0..1`. -/
structure BlitPass where
  srcLevel : Nat
  dstLevel : Nat
  loadOp : GLoadOp
  firstVertex : Nat
  vertexCount : Nat
  firstInstance : Nat
  instanceCount : Nat
deriving DecidableEq, Repr

/-- Embedding of the inner loop of `generate_mipmaps` for one texture of size
(w, h): `for target_mip in 1..mip_level_count` record one pass sampling
`views[target_mip - 1]` into `views[target_mip]`, cleared to BLACK, drawing
`0..4` / `0..1` (src/mipmaps.rs lines 67-99). -/
def texturePasses (w h : Nat) : List BlitPass :=
  (List.range' 1 (mip_level_count w h - 1)).map
    (fun target_mip =>
      { srcLevel := target_mip - 1
        dstLevel := target_mip
        loadOp := GLoadOp.clear GColor.BLACK
        firstVertex := 0
        vertexCount := 4
        firstInstance := 0
        instanceCount := 1 })

/-- Embedding of `generate_mipmaps` (src/mipmaps.rs): textures are processed
sequentially into one shared encoder, whose finished command buffer is the
concatenation of every texture's pass list. A texture is represented by its
base size (w, h). -/
def generate_mipmaps (textures : List (Nat × Nat)) : List BlitPass :=
  (textures.map (fun t => texturePasses t.1 t.2)).flatten

/-! ### Bind group construction (src/bind_group.rs)

The wgpu handle types appearing in entries are opaque to this module:
`Ty` stands for `wgpu::BindingType`, `Res` for `wgpu::BindingResource`,
the visibility stage mask `wgpu::ShaderStages` is a `Nat` bitmask and
`count` embeds `Option<NonZeroU32>` as `Option Nat`. -/

/-- Embedding of `CompactBindGroupEntry`. -/
structure CompactBindGroupEntry (Ty Res : Type) where
  binding : Nat
  visibility : Nat
  ty : Ty
  count : Option Nat
  resource : Res
deriving DecidableEq, Repr

/-- Embedding of `CompactBindGroupDescriptor`. -/
structure CompactBindGroupDescriptor (Ty Res : Type) where
  label : Option String
  entries : List (CompactBindGroupEntry Ty Res)
deriving DecidableEq, Repr

/-- Embedding of `wgpu::BindGroupLayoutEntry`. -/
structure BindGroupLayoutEntry (Ty : Type) where
  binding : Nat
  visibility : Nat
  ty : Ty
  count : Option Nat
deriving DecidableEq, Repr

/-- Embedding of `wgpu::BindGroupEntry`. -/
structure BindGroupEntry (Res : Type) where
  binding : Nat
  resource : Res
deriving DecidableEq, Repr

/-- Embedding of `CompactBindGroupDescriptor::to_bind_group_layout_entry`:
project each entry to (binding, visibility, ty, count). -/
def CompactBindGroupDescriptor.to_bind_group_layout_entry {Ty Res : Type}
    (d : CompactBindGroupDescriptor Ty Res) : List (BindGroupLayoutEntry Ty) :=
  d.entries.map (fun x => ⟨x.binding, x.visibility, x.ty, x.count⟩)

/-- Embedding of `CompactBindGroupDescriptor::to_bind_group_entry`:
project each entry to (binding, resource). -/
def CompactBindGroupDescriptor.to_bind_group_entry {Ty Res : Type}
    (d : CompactBindGroupDescriptor Ty Res) : List (BindGroupEntry Res) :=
  d.entries.map (fun x => ⟨x.binding, x.resource⟩)

/-- Model of a created `wgpu::BindGroupLayout`: the device-allocation order
of GPU objects is made explicit by an `id` drawn from a counter. -/
structure BindGroupLayout (Ty : Type) where
  id : Nat
  entries : List (BindGroupLayoutEntry Ty)
  label : Option String
deriving DecidableEq, Repr

/-- Model of a created `wgpu::BindGroup`; `layoutId` records which layout the
group was created against. -/
structure BindGroup (Res : Type) where
  id : Nat
  layoutId : Nat
  entries : List (BindGroupEntry Res)
  label : Option String
deriving DecidableEq, Repr

/-- Embedding of `create_bind_group` (src/bind_group.rs lines 43-57): create
the layout (with label suffixed by "_layout"), then the group against that
layout with the descriptor's label unchanged. The device is modelled by its
allocation counter `nextId`; the layout is allocated first. -/
def create_bind_group {Ty Res : Type} (nextId : Nat)
    (desc : CompactBindGroupDescriptor Ty Res) :
    (BindGroup Res × BindGroupLayout Ty) × Nat :=
  let bind_group_layout : BindGroupLayout Ty :=
    { id := nextId
      entries := desc.to_bind_group_layout_entry
      label := desc.label.map (fun x => x ++ "_layout") }
  let bind_group : BindGroup Res :=
    { id := nextId + 1
      layoutId := bind_group_layout.id
      entries := desc.to_bind_group_entry
      label := desc.label }
  ((bind_group, bind_group_layout), nextId + 2)

/-- Concrete one-entry descriptor (the shape of the camera bind group built in
src/graphics.rs lines 154-170: one vertex-visible uniform-buffer entry at
binding 0), with the opaque type and resource handles instantiated by Nat
codes. -/
def cbgdW : CompactBindGroupDescriptor Nat Nat :=
  { label := some "camera_bind_group"
    entries := [⟨0, 1, 7, none, 42⟩] }

/-! ### Surface configuration and resize (src/graphics.rs) -/

/-- Embedding of `wgpu::TextureFormat` restricted to what the code inspects:
an opaque code plus the result of `TextureFormat::is_srgb`. -/
structure GFormat where
  code : Nat
  srgb : Bool
deriving DecidableEq, Repr

def GFormat.is_srgb (f : GFormat) : Bool := f.srgb

/-- Embedding of the fields of `wgpu::SurfaceCapabilities` read by
`configure_surface`: formats, present modes and alpha modes (the latter two
as opaque Nat codes). wgpu guarantees these lists are nonempty for a
compatible adapter; the code indexes element 0 without a check. -/
structure SurfaceCapabilities where
  formats : List GFormat
  presentModes : List Nat
  alphaModes : List Nat
deriving DecidableEq, Repr

/-- Embedding of `wgpu::SurfaceConfiguration` as built by
`configure_surface` (src/graphics.rs lines 538-546). -/
structure SurfaceConfiguration where
  usage : Nat
  format : GFormat
  width : Nat
  height : Nat
  presentMode : Nat
  alphaMode : Nat
deriving DecidableEq, Repr

/-- Embedding of `wgpu::TextureUsages::RENDER_ATTACHMENT` (bit 4). -/
def RENDER_ATTACHMENT : Nat := 16

/-- Embedding of `const MSAA_SAMPLE_COUNT: u32 = 4` (src/graphics.rs line 59). -/
def MSAA_SAMPLE_COUNT : Nat := 4

/-- Embedding of the format selection in `configure_surface`
(src/graphics.rs lines 531-536):
`formats.iter().copied().find(|f| f.is_srgb()).unwrap_or(formats[0])`.
Rust's `formats[0]` panics on an empty list; the model totalises it with a
default that the theorems exclude by hypothesising a nonempty format list. -/
def surface_format (caps : SurfaceCapabilities) : GFormat :=
  (caps.formats.find? GFormat.is_srgb).getD (caps.formats.getD 0 ⟨0, false⟩)

/-- Embedding of the `SurfaceConfiguration` value built and applied by
`configure_surface` (src/graphics.rs lines 538-547); `presentModes[0]` and
`alphaModes[0]` are likewise totalised with default 0. -/
def configure_surface (caps : SurfaceCapabilities) (size : Nat × Nat) :
    SurfaceConfiguration :=
  { usage := RENDER_ATTACHMENT
    format := surface_format caps
    width := size.1
    height := size.2
    presentMode := caps.presentModes.getD 0 0
    alphaMode := caps.alphaModes.getD 0 0 }

/-- Model of a created texture: the size/sample-count metadata the claims
are about. -/
structure GTexture where
  width : Nat
  height : Nat
  sampleCount : Nat
  label : String
deriving DecidableEq, Repr

/-- Modelled from the spec: `Texture::create_depth_texture` lives in
texture.rs, which is not under src/. Spec section 4.3 says the rebuild
"allocates a depth attachment sized to `config.width × config.height`" with
the given sample count. -/
def create_depth_texture (config : SurfaceConfiguration) (label : String)
    (sampleCount : Nat) : GTexture :=
  { width := config.width
    height := config.height
    sampleCount := sampleCount
    label := label }

/-- Modelled from the spec: `Texture::create_msfb_texture` lives in
texture.rs, which is not under src/. Spec section 4.3 says the rebuild
allocates "a color attachment of the same size with `sample_count` samples". -/
def create_msfb_texture (config : SurfaceConfiguration) (label : String)
    (sampleCount : Nat) : GTexture :=
  { width := config.width
    height := config.height
    sampleCount := sampleCount
    label := label }

/-- Side effects of `State::resize` on the GPU, recorded in call order. -/
inductive SurfaceOp where
  | createDepthTexture (c : SurfaceConfiguration) (samples : Nat)
  | createMsfbTexture (c : SurfaceConfiguration) (samples : Nat)
  | configure (c : SurfaceConfiguration)
deriving DecidableEq, Repr

/-- Embedding of the fields of `State` (src/graphics.rs lines 27-58) that the
resize/size claims concern. -/
structure GState where
  config : SurfaceConfiguration
  size : Nat × Nat
  depth_texture : GTexture
  multisampled_framebuffer : GTexture
deriving DecidableEq, Repr

/-- Embedding of the surface/size-relevant part of `State::new`
(src/graphics.rs lines 63-86): configure the surface at the window's inner
size, then create the depth and multisampled textures from the resulting
config at MSAA_SAMPLE_COUNT. -/
def GState.new (caps : SurfaceCapabilities) (size : Nat × Nat) : GState :=
  let config := configure_surface caps size
  { config := config
    size := size
    depth_texture := create_depth_texture config "depth_texture" MSAA_SAMPLE_COUNT
    multisampled_framebuffer :=
      create_msfb_texture config "mssa_texture" MSAA_SAMPLE_COUNT }

/-- Embedding of `State::resize` (src/graphics.rs lines 273-295): if both
dimensions are positive, update size and config, recreate the depth texture,
recreate the multisampled framebuffer, then reconfigure the surface (the
returned op list records that call order); otherwise do nothing. -/
def GState.resize (s : GState) (new_size : Nat × Nat) : GState × List SurfaceOp :=
  if 0 < new_size.1 ∧ 0 < new_size.2 then
    let config :=
      { s.config with width := new_size.1, height := new_size.2 }
    let depth := create_depth_texture config "depth_texture" MSAA_SAMPLE_COUNT
    let msfb := create_msfb_texture config "mssa_texture" MSAA_SAMPLE_COUNT
    ({ s with
        size := new_size
        config := config
        depth_texture := depth
        multisampled_framebuffer := msfb },
     [SurfaceOp.createDepthTexture config MSAA_SAMPLE_COUNT,
      SurfaceOp.createMsfbTexture config MSAA_SAMPLE_COUNT,
      SurfaceOp.configure config])
  else
    (s, [])

/-- State reached after a sequence of `resize` calls. -/
def applyResizes (s : GState) (rs : List (Nat × Nat)) : GState :=
  rs.foldl (fun st r => (GState.resize st r).1) s

/-- Concrete state used by witnesses: the program's startup configuration
(a 600 x 600 window, as `run` in src/lib.rs creates) over a one-format
capability set. -/
def cgsW : GState := GState.new ⟨[⟨1, true⟩], [2], [3]⟩ (600, 600)

/-- Concrete capability set used by witnesses: two formats, the second of
which is sRGB. -/
def capsW : SurfaceCapabilities := ⟨[⟨0, false⟩, ⟨1, true⟩], [2], [3]⟩

/-! ### Per-frame rendering and the event loop's error policy
(src/graphics.rs `State::render`, src/lib.rs `run`) -/

/-- Embedding of `wgpu::SurfaceError` (the variants the code matches on). -/
inductive GSurfaceError where
  | Timeout
  | Outdated
  | Lost
  | OutOfMemory
deriving DecidableEq, Repr

/-- The two render pipelines set inside the scene pass. -/
inductive PipelineId where
  | aquariumPipeline
  | fishPipeline
deriving DecidableEq, Repr

/-- The two models drawn inside the scene pass. -/
inductive ModelId where
  | aquarium
  | fish
deriving DecidableEq, Repr

/-- Commands recorded into the scene render pass. -/
inductive PassOp where
  | setPipeline (p : PipelineId)
  | drawModelInstanced (m : ModelId) (instances : Nat)
  | setVertexBuffer (slot : Nat)
  | setBindGroup (index : Nat)
deriving DecidableEq, Repr

/-- A finished command buffer: either the scene encoder's buffer with its
recorded pass ops, or the ui encoder's buffer (whose egui paint commands are
an external black box). -/
inductive CommandBuf where
  | scene (ops : List PassOp)
  | ui
deriving DecidableEq, Repr

/-- Queue-level events of one render call, in program order. -/
inductive RenderEvent where
  | submit (bufs : List CommandBuf)
  | present
deriving DecidableEq, Repr

def RenderEvent.isSubmit : RenderEvent → Bool
  | submit _ => true
  | present => false

/-- Embedding of `pub const NUM_INSTANCES: usize = 50` (src/boids.rs). -/
def NUM_INSTANCES : Nat := 50

/-- The ops recorded into the scene render pass by `State::render`
(src/graphics.rs lines 369-379): aquarium pipeline, aquarium draw (one
instance), boids vertex buffer at slot 1, boids bind group at index 2, fish
pipeline, instanced fish draw. -/
def scenePassOps : List PassOp :=
  [PassOp.setPipeline PipelineId.aquariumPipeline,
   PassOp.drawModelInstanced ModelId.aquarium 1,
   PassOp.setVertexBuffer 1,
   PassOp.setBindGroup 2,
   PassOp.setPipeline PipelineId.fishPipeline,
   PassOp.drawModelInstanced ModelId.fish NUM_INSTANCES]

/-- Embedding of `State::render` (src/graphics.rs lines 338-465), abstracted
over the result of `surface.get_current_texture()`: on acquisition failure
the `?` operator returns the error before any encoder is created, so no
events occur; on success the scene pass is recorded, both encoders are
finished and submitted in one call in the order [scene, ui], and the frame is
presented after the submission. -/
def GState.render (s : GState) (acq : Except GSurfaceError Unit) :
    Except GSurfaceError (List RenderEvent) :=
  match acq with
  | Except.error e => Except.error e
  | Except.ok _ =>
      Except.ok
        [RenderEvent.submit [CommandBuf.scene scenePassOps, CommandBuf.ui],
         RenderEvent.present]

/-- Embedding of `winit::ControlFlow` as driven by `run`. -/
inductive GControlFlow where
  | continueLoop
  | exitLoop
deriving DecidableEq, Repr

/-- Observable outcome of one redraw tick of the event loop. -/
structure TickResult where
  state : GState
  resizeCalls : List (Nat × Nat)
  control : GControlFlow
  logged : List GSurfaceError
  events : List RenderEvent
deriving DecidableEq, Repr

/-- Embedding of the redraw arm of `run` (src/lib.rs lines 87-98): on Ok do
nothing further; on Lost call resize once at the current size; on OutOfMemory
exit the loop; on any other error (Outdated, Timeout) log it and continue. -/
def redrawTick (s : GState) (acq : Except GSurfaceError Unit) : TickResult :=
  match GState.render s acq with
  | Except.ok evs =>
      { state := s, resizeCalls := [], control := GControlFlow.continueLoop,
        logged := [], events := evs }
  | Except.error GSurfaceError.Lost =>
      { state := (GState.resize s s.size).1, resizeCalls := [s.size],
        control := GControlFlow.continueLoop, logged := [], events := [] }
  | Except.error GSurfaceError.OutOfMemory =>
      { state := s, resizeCalls := [], control := GControlFlow.exitLoop,
        logged := [], events := [] }
  | Except.error e =>
      { state := s, resizeCalls := [], control := GControlFlow.continueLoop,
        logged := [e], events := [] }

end Boids

open Boids

theorem ilog2Aux_eq_log (fuel n : Nat) (h : n ≤ fuel) :
    ilog2Aux fuel n = Nat.log 2 n := by
  induction fuel generalizing n with
  | zero =>
    have hn : n = 0 := Nat.le_zero.mp h
    subst hn
    simp [ilog2Aux]
  | succ fuel ih =>
    by_cases h2 : n < 2
    · have hn : n = 0 ∨ n = 1 := by omega
      rcases hn with rfl | rfl <;> simp [ilog2Aux]
    · have hrec : n / 2 ≤ fuel := by omega
      have hlogpos : 0 < Nat.log 2 n := Nat.log_pos (by norm_num) (by omega)
      have hdiv : Nat.log 2 (n / 2) = Nat.log 2 n - 1 := Nat.log_div_base 2 n
      simp only [ilog2Aux, if_neg h2]
      rw [ih (n / 2) hrec, hdiv]
      omega

theorem ilog2_eq_log (n : Nat) : ilog2 n = Nat.log 2 n :=
  ilog2Aux_eq_log n n (Nat.le_refl n)

/-- C1: for every texture with dimensions at least 1x1, the mip level count
computed by generate_mipmaps equals 1 + floor(log2(max(width, height)));
in particular (256,256) yields 9, (1,1) yields 1, and (300,150) yields 9. -/
theorem C1_mip_level_count (w h : Nat) (hw : 1 ≤ w) (hh : 1 ≤ h) :
    mip_level_count w h = 1 + Nat.log 2 (max w h) ∧
    mip_level_count 256 256 = 9 ∧
    mip_level_count 1 1 = 1 ∧
    mip_level_count 300 150 = 9 := by
  refine ⟨?_, by decide, by decide, by decide⟩
  unfold mip_level_count
  rw [ilog2_eq_log]

/-- Witness for C1 at the concrete dimensions (300, 150). -/
theorem C1_mip_level_count_witness :
    mip_level_count 300 150 = 1 + Nat.log 2 (max 300 150) ∧
    mip_level_count 256 256 = 9 ∧
    mip_level_count 1 1 = 1 ∧
    mip_level_count 300 150 = 9 :=
  C1_mip_level_count 300 150 (by decide) (by decide)

/-- C7: generate_mipmaps returns the single command buffer made of each input
texture's passes in order; a texture of size (w, h) contributes exactly
mip_level_count - 1 blit passes, the i-th of which targets level i+1 sampling
level i with the target cleared to black (so targets are in increasing order
and each pass reads the level just below its target); a 1x1 texture
contributes zero passes, a (512,512) texture exactly 9, and an empty texture
list yields an empty command buffer. -/
theorem C7_generate_mipmaps (ts : List (Nat × Nat)) (w h i : Nat)
    (hi : i < (texturePasses w h).length) :
    generate_mipmaps ts = (ts.map (fun t => texturePasses t.1 t.2)).flatten ∧
    (texturePasses w h).length = mip_level_count w h - 1 ∧
    (texturePasses w h).get ⟨i, hi⟩ =
      { srcLevel := i
        dstLevel := i + 1
        loadOp := GLoadOp.clear GColor.BLACK
        firstVertex := 0
        vertexCount := 4
        firstInstance := 0
        instanceCount := 1 } ∧
    texturePasses 1 1 = [] ∧
    (texturePasses 512 512).length = 9 ∧
    generate_mipmaps [] = [] := by
  refine ⟨rfl, ?_, ?_, by decide, by decide, rfl⟩
  · simp [texturePasses]
  · have hlen : (texturePasses w h).length = mip_level_count w h - 1 := by
      simp [texturePasses]
    have hi' : i < mip_level_count w h - 1 := hlen ▸ hi
    simp only [texturePasses, List.get_eq_getElem, List.getElem_map,
      List.getElem_range']
    congr 1 <;> omega

/-- Witness for C7 at a concrete (4, 4) texture and pass index 1. -/
theorem C7_generate_mipmaps_witness :
    generate_mipmaps [(4, 4)] =
      ([(4, 4)].map (fun t => texturePasses t.1 t.2)).flatten ∧
    (texturePasses 4 4).length = mip_level_count 4 4 - 1 ∧
    (texturePasses 4 4).get ⟨1, by decide⟩ =
      { srcLevel := 1
        dstLevel := 2
        loadOp := GLoadOp.clear GColor.BLACK
        firstVertex := 0
        vertexCount := 4
        firstInstance := 0
        instanceCount := 1 } ∧
    texturePasses 1 1 = [] ∧
    (texturePasses 512 512).length = 9 ∧
    generate_mipmaps [] = [] :=
  C7_generate_mipmaps [(4, 4)] 4 4 1 (by decide)

/-- C2: for a descriptor with N entries, create_bind_group derives a layout
with exactly N entries and a group with exactly N entries; at every index i
the bindings of layout entry, group entry and descriptor entry agree, the
layout entry's visibility, type and count equal the descriptor entry's, the
group entry's resource equals the descriptor entry's resource; and the layout
is allocated first (smaller device id) with the group created against exactly
that layout. -/
theorem C2_create_bind_group {Ty Res : Type} (nextId : Nat)
    (desc : CompactBindGroupDescriptor Ty Res) (i : Nat)
    (hi : i < desc.entries.length)
    (hl : i < ((create_bind_group nextId desc).1.2).entries.length)
    (hg : i < ((create_bind_group nextId desc).1.1).entries.length) :
    ((create_bind_group nextId desc).1.2).entries.length = desc.entries.length ∧
    ((create_bind_group nextId desc).1.1).entries.length = desc.entries.length ∧
    (((create_bind_group nextId desc).1.2).entries.get ⟨i, hl⟩).binding =
      (desc.entries.get ⟨i, hi⟩).binding ∧
    (((create_bind_group nextId desc).1.1).entries.get ⟨i, hg⟩).binding =
      (desc.entries.get ⟨i, hi⟩).binding ∧
    (((create_bind_group nextId desc).1.2).entries.get ⟨i, hl⟩).visibility =
      (desc.entries.get ⟨i, hi⟩).visibility ∧
    (((create_bind_group nextId desc).1.2).entries.get ⟨i, hl⟩).ty =
      (desc.entries.get ⟨i, hi⟩).ty ∧
    (((create_bind_group nextId desc).1.2).entries.get ⟨i, hl⟩).count =
      (desc.entries.get ⟨i, hi⟩).count ∧
    (((create_bind_group nextId desc).1.1).entries.get ⟨i, hg⟩).resource =
      (desc.entries.get ⟨i, hi⟩).resource ∧
    ((create_bind_group nextId desc).1.2).id <
      ((create_bind_group nextId desc).1.1).id ∧
    ((create_bind_group nextId desc).1.1).layoutId =
      ((create_bind_group nextId desc).1.2).id := by
  simp [create_bind_group, CompactBindGroupDescriptor.to_bind_group_layout_entry,
    CompactBindGroupDescriptor.to_bind_group_entry]

/-- Witness for C2 at a concrete one-entry descriptor and index 0. -/
theorem C2_create_bind_group_witness :
    ((create_bind_group 0 cbgdW).1.2).entries.length = cbgdW.entries.length ∧
    ((create_bind_group 0 cbgdW).1.1).entries.length = cbgdW.entries.length ∧
    (((create_bind_group 0 cbgdW).1.2).entries.get ⟨0, by decide⟩).binding =
      (cbgdW.entries.get ⟨0, by decide⟩).binding ∧
    (((create_bind_group 0 cbgdW).1.1).entries.get ⟨0, by decide⟩).binding =
      (cbgdW.entries.get ⟨0, by decide⟩).binding ∧
    (((create_bind_group 0 cbgdW).1.2).entries.get ⟨0, by decide⟩).visibility =
      (cbgdW.entries.get ⟨0, by decide⟩).visibility ∧
    (((create_bind_group 0 cbgdW).1.2).entries.get ⟨0, by decide⟩).ty =
      (cbgdW.entries.get ⟨0, by decide⟩).ty ∧
    (((create_bind_group 0 cbgdW).1.2).entries.get ⟨0, by decide⟩).count =
      (cbgdW.entries.get ⟨0, by decide⟩).count ∧
    (((create_bind_group 0 cbgdW).1.1).entries.get ⟨0, by decide⟩).resource =
      (cbgdW.entries.get ⟨0, by decide⟩).resource ∧
    ((create_bind_group 0 cbgdW).1.2).id < ((create_bind_group 0 cbgdW).1.1).id ∧
    ((create_bind_group 0 cbgdW).1.1).layoutId =
      ((create_bind_group 0 cbgdW).1.2).id :=
  C2_create_bind_group 0 cbgdW 0 (by decide) (by decide) (by decide)

/-- C3: resize with a zero dimension is a no-op: the whole state (config with
its width, height, format and present mode, the depth texture and the
multisampled color texture) is unchanged and no texture rebuild or surface
reconfiguration is performed. -/
theorem C3_resize_zero_noop (s : GState) (W H : Nat) (h : W = 0 ∨ H = 0) :
    GState.resize s (W, H) = (s, []) := by
  unfold GState.resize
  rcases h with rfl | rfl <;> simp

/-- Witness for C3 at a concrete state and size (0, 600). -/
theorem C3_resize_zero_noop_witness :
    GState.resize (GState.new ⟨[⟨1, true⟩], [2], [3]⟩ (600, 600)) (0, 600) =
      (GState.new ⟨[⟨1, true⟩], [2], [3]⟩ (600, 600), []) :=
  C3_resize_zero_noop (GState.new ⟨[⟨1, true⟩], [2], [3]⟩ (600, 600)) 0 600
    (Or.inl rfl)

/-- C4: resize with positive dimensions W, H sets config.width and
config.height to exactly W and H, rebuilds both the depth texture and the
multisampled color texture at size (W, H) with the fixed sample count
MSAA_SAMPLE_COUNT = 4, and the recorded op order places both rebuilds before
the surface reconfiguration. -/
theorem C4_resize_positive (s : GState) (W H : Nat) (hW : 0 < W) (hH : 0 < H) :
    (GState.resize s (W, H)).1.config.width = W ∧
    (GState.resize s (W, H)).1.config.height = H ∧
    (GState.resize s (W, H)).1.depth_texture =
      { width := W, height := H, sampleCount := MSAA_SAMPLE_COUNT,
        label := "depth_texture" } ∧
    (GState.resize s (W, H)).1.multisampled_framebuffer =
      { width := W, height := H, sampleCount := MSAA_SAMPLE_COUNT,
        label := "mssa_texture" } ∧
    MSAA_SAMPLE_COUNT = 4 ∧
    (GState.resize s (W, H)).2 =
      [SurfaceOp.createDepthTexture
          { s.config with width := W, height := H } MSAA_SAMPLE_COUNT,
       SurfaceOp.createMsfbTexture
          { s.config with width := W, height := H } MSAA_SAMPLE_COUNT,
       SurfaceOp.configure { s.config with width := W, height := H }] := by
  unfold GState.resize
  simp [hW, hH, create_depth_texture, create_msfb_texture, MSAA_SAMPLE_COUNT]

/-- Witness for C4 at a concrete state and size (800, 450). -/
theorem C4_resize_positive_witness :
    (GState.resize cgsW (800, 450)).1.config.width = 800 ∧
    (GState.resize cgsW (800, 450)).1.config.height = 450 ∧
    (GState.resize cgsW (800, 450)).1.depth_texture =
      { width := 800, height := 450, sampleCount := MSAA_SAMPLE_COUNT,
        label := "depth_texture" } ∧
    (GState.resize cgsW (800, 450)).1.multisampled_framebuffer =
      { width := 800, height := 450, sampleCount := MSAA_SAMPLE_COUNT,
        label := "mssa_texture" } ∧
    MSAA_SAMPLE_COUNT = 4 ∧
    (GState.resize cgsW (800, 450)).2 =
      [SurfaceOp.createDepthTexture
          { cgsW.config with width := 800, height := 450 } MSAA_SAMPLE_COUNT,
       SurfaceOp.createMsfbTexture
          { cgsW.config with width := 800, height := 450 } MSAA_SAMPLE_COUNT,
       SurfaceOp.configure { cgsW.config with width := 800, height := 450 }] :=
  C4_resize_positive cgsW 800 450 (by decide) (by decide)

theorem resize_preserves_inv (s : GState) (r : Nat × Nat)
    (h1 : 0 < s.config.width) (h2 : 0 < s.config.height)
    (h3 : s.size = (s.config.width, s.config.height)) :
    0 < ((GState.resize s r).1).config.width ∧
    0 < ((GState.resize s r).1).config.height ∧
    ((GState.resize s r).1).size =
      (((GState.resize s r).1).config.width,
       ((GState.resize s r).1).config.height) := by
  unfold GState.resize
  by_cases hc : 0 < r.1 ∧ 0 < r.2
  · simp only [if_pos hc]
    exact ⟨hc.1, hc.2, by trivial⟩
  · simp only [if_neg hc]
    exact ⟨h1, h2, h3⟩

theorem applyResizes_inv (rs : List (Nat × Nat)) (s : GState)
    (h1 : 0 < s.config.width) (h2 : 0 < s.config.height)
    (h3 : s.size = (s.config.width, s.config.height)) :
    0 < (applyResizes s rs).config.width ∧
    0 < (applyResizes s rs).config.height ∧
    (applyResizes s rs).size =
      ((applyResizes s rs).config.width, (applyResizes s rs).config.height) := by
  induction rs generalizing s with
  | nil => exact ⟨h1, h2, h3⟩
  | cons r rs ih =>
    have hstep := resize_preserves_inv s r h1 h2 h3
    exact ih (GState.resize s r).1 hstep.1 hstep.2.1 hstep.2.2

theorem new_state_inv (caps : SurfaceCapabilities) (W H : Nat)
    (hW : 0 < W) (hH : 0 < H) :
    0 < (GState.new caps (W, H)).config.width ∧
    0 < (GState.new caps (W, H)).config.height ∧
    (GState.new caps (W, H)).size =
      ((GState.new caps (W, H)).config.width,
       (GState.new caps (W, H)).config.height) := by
  refine ⟨?_, ?_, rfl⟩
  · simpa [GState.new, configure_surface] using hW
  · simpa [GState.new, configure_surface] using hH

/-- C8: starting from a positive initial window size (the program starts at
600x600), the surface configuration's width and height are positive after
construction and stay positive across every sequence of resize calls: a
minimized-window resize never writes a zero dimension. -/
theorem C8_config_dims_positive (caps : SurfaceCapabilities) (W H : Nat)
    (hW : 0 < W) (hH : 0 < H) (rs : List (Nat × Nat)) :
    0 < (applyResizes (GState.new caps (W, H)) rs).config.width ∧
    0 < (applyResizes (GState.new caps (W, H)) rs).config.height := by
  have h0 := new_state_inv caps W H hW hH
  have h := applyResizes_inv rs (GState.new caps (W, H)) h0.1 h0.2.1 h0.2.2
  exact ⟨h.1, h.2.1⟩

/-- Witness for C8: initial size 600x600, then a minimize (0, 0) followed by
a resize to (1024, 768). -/
theorem C8_config_dims_positive_witness :
    0 < (applyResizes (GState.new ⟨[⟨1, true⟩], [2], [3]⟩ (600, 600))
          [(0, 0), (1024, 768)]).config.width ∧
    0 < (applyResizes (GState.new ⟨[⟨1, true⟩], [2], [3]⟩ (600, 600))
          [(0, 0), (1024, 768)]).config.height :=
  C8_config_dims_positive ⟨[⟨1, true⟩], [2], [3]⟩ 600 600 (by decide) (by decide)
    [(0, 0), (1024, 768)]

/-- C10: after construction and after every sequence of resize calls, the
stored window size equals (config.width, config.height); consequently the
surface-Lost recovery call `resize(*state.size())` reconfigures the surface
at exactly the current surface dimensions — its recorded ops rebuild the
attachments and reconfigure with a config equal to the current one. -/
theorem C10_size_tracks_config (caps : SurfaceCapabilities) (W H : Nat)
    (hW : 0 < W) (hH : 0 < H) (rs : List (Nat × Nat)) :
    (applyResizes (GState.new caps (W, H)) rs).size =
      ((applyResizes (GState.new caps (W, H)) rs).config.width,
       (applyResizes (GState.new caps (W, H)) rs).config.height) ∧
    (GState.resize (applyResizes (GState.new caps (W, H)) rs)
        (applyResizes (GState.new caps (W, H)) rs).size).2 =
      [SurfaceOp.createDepthTexture
          (applyResizes (GState.new caps (W, H)) rs).config MSAA_SAMPLE_COUNT,
       SurfaceOp.createMsfbTexture
          (applyResizes (GState.new caps (W, H)) rs).config MSAA_SAMPLE_COUNT,
       SurfaceOp.configure (applyResizes (GState.new caps (W, H)) rs).config] := by
  have h0 := new_state_inv caps W H hW hH
  obtain ⟨h1, h2, h3⟩ :=
    applyResizes_inv rs (GState.new caps (W, H)) h0.1 h0.2.1 h0.2.2
  refine ⟨h3, ?_⟩
  have hcond :
      0 < (applyResizes (GState.new caps (W, H)) rs).size.1 ∧
      0 < (applyResizes (GState.new caps (W, H)) rs).size.2 := by
    rw [h3]
    exact ⟨h1, h2⟩
  have e1 : (applyResizes (GState.new caps (W, H)) rs).size.1 =
      (applyResizes (GState.new caps (W, H)) rs).config.width := by rw [h3]
  have e2 : (applyResizes (GState.new caps (W, H)) rs).size.2 =
      (applyResizes (GState.new caps (W, H)) rs).config.height := by rw [h3]
  unfold GState.resize
  rw [if_pos hcond]
  rw [e1, e2]

/-- Witness for C10: initial size 600x600, one resize to (1024, 768). -/
theorem C10_size_tracks_config_witness :
    (applyResizes (GState.new ⟨[⟨1, true⟩], [2], [3]⟩ (600, 600))
        [(1024, 768)]).size =
      ((applyResizes (GState.new ⟨[⟨1, true⟩], [2], [3]⟩ (600, 600))
          [(1024, 768)]).config.width,
       (applyResizes (GState.new ⟨[⟨1, true⟩], [2], [3]⟩ (600, 600))
          [(1024, 768)]).config.height) ∧
    (GState.resize
        (applyResizes (GState.new ⟨[⟨1, true⟩], [2], [3]⟩ (600, 600))
          [(1024, 768)])
        (applyResizes (GState.new ⟨[⟨1, true⟩], [2], [3]⟩ (600, 600))
          [(1024, 768)]).size).2 =
      [SurfaceOp.createDepthTexture
          (applyResizes (GState.new ⟨[⟨1, true⟩], [2], [3]⟩ (600, 600))
            [(1024, 768)]).config MSAA_SAMPLE_COUNT,
       SurfaceOp.createMsfbTexture
          (applyResizes (GState.new ⟨[⟨1, true⟩], [2], [3]⟩ (600, 600))
            [(1024, 768)]).config MSAA_SAMPLE_COUNT,
       SurfaceOp.configure
          (applyResizes (GState.new ⟨[⟨1, true⟩], [2], [3]⟩ (600, 600))
            [(1024, 768)]).config] :=
  C10_size_tracks_config ⟨[⟨1, true⟩], [2], [3]⟩ 600 600 (by decide) (by decide)
    [(1024, 768)]

/-- C9: the chosen surface color format is sRGB whenever at least one
supported format is sRGB, otherwise it is the first supported format; and the
surface is configured with exactly that format at the initial size. -/
theorem C9_surface_format_choice (caps : SurfaceCapabilities) (sz : Nat × Nat)
    (hne : caps.formats ≠ []) :
    ((∃ f ∈ caps.formats, f.srgb = true) → (surface_format caps).srgb = true) ∧
    ((∀ f ∈ caps.formats, f.srgb = false) →
      surface_format caps = caps.formats.head hne) ∧
    (configure_surface caps sz).format = surface_format caps ∧
    (configure_surface caps sz).width = sz.1 ∧
    (configure_surface caps sz).height = sz.2 := by
  refine ⟨?_, ?_, rfl, rfl, rfl⟩
  · rintro ⟨f, hf, hsrgb⟩
    have hsome : (caps.formats.find? GFormat.is_srgb).isSome := by
      rw [List.find?_isSome]
      exact ⟨f, hf, hsrgb⟩
    obtain ⟨g, hg⟩ := Option.isSome_iff_exists.mp hsome
    have hp := List.find?_some hg
    unfold surface_format
    rw [hg]
    simpa [GFormat.is_srgb] using hp
  · intro hall
    have hnone : caps.formats.find? GFormat.is_srgb = none := by
      rw [List.find?_eq_none]
      intro x hx
      simp [GFormat.is_srgb, hall x hx]
    unfold surface_format
    rw [hnone, Option.getD_none]
    revert hne
    cases caps.formats with
    | nil => intro hne; exact absurd rfl hne
    | cons a l => intro hne; simp

/-- Witness for C9 at a two-format capability set whose second format is
sRGB. -/
theorem C9_surface_format_choice_witness :
    ((∃ f ∈ capsW.formats, f.srgb = true) → (surface_format capsW).srgb = true) ∧
    ((∀ f ∈ capsW.formats, f.srgb = false) →
      surface_format capsW = capsW.formats.head (by decide)) ∧
    (configure_surface capsW (600, 600)).format = surface_format capsW ∧
    (configure_surface capsW (600, 600)).width = (600, 600).1 ∧
    (configure_surface capsW (600, 600)).height = (600, 600).2 :=
  C9_surface_format_choice capsW (600, 600) (by decide)

/-- C5: acquisition failure short-circuits render with no events encoded or
submitted; the event loop then performs exactly one resize at the unchanged
current size on Lost, exits on OutOfMemory, and on Outdated or Timeout logs
the error, keeps the state untouched and skips the tick. -/
theorem C5_acquire_error_policy (s : GState) (e : GSurfaceError) :
    GState.render s (Except.error e) = Except.error e ∧
    (redrawTick s (Except.error e)).events = [] ∧
    redrawTick s (Except.error GSurfaceError.Lost) =
      { state := (GState.resize s s.size).1
        resizeCalls := [s.size]
        control := GControlFlow.continueLoop
        logged := []
        events := [] } ∧
    redrawTick s (Except.error GSurfaceError.OutOfMemory) =
      { state := s
        resizeCalls := []
        control := GControlFlow.exitLoop
        logged := []
        events := [] } ∧
    redrawTick s (Except.error GSurfaceError.Outdated) =
      { state := s
        resizeCalls := []
        control := GControlFlow.continueLoop
        logged := [GSurfaceError.Outdated]
        events := [] } ∧
    redrawTick s (Except.error GSurfaceError.Timeout) =
      { state := s
        resizeCalls := []
        control := GControlFlow.continueLoop
        logged := [GSurfaceError.Timeout]
        events := [] } := by
  refine ⟨rfl, ?_, rfl, rfl, rfl, rfl⟩
  cases e <;> rfl

/-- C6: a successful render tick submits exactly two command buffers in one
submit call in the order [scene, ui], presents only after that submission,
and within the scene pass the aquarium (background) draw precedes the
instanced fish (foreground) draw. -/
theorem C6_render_submit_ordering (s : GState) :
    GState.render s (Except.ok ()) =
      Except.ok
        [RenderEvent.submit [CommandBuf.scene scenePassOps, CommandBuf.ui],
         RenderEvent.present] ∧
    ((redrawTick s (Except.ok ())).events.filter
        (fun ev => ev.isSubmit)).length = 1 ∧
    (redrawTick s (Except.ok ())).events =
      [RenderEvent.submit [CommandBuf.scene scenePassOps, CommandBuf.ui],
       RenderEvent.present] ∧
    [CommandBuf.scene scenePassOps, CommandBuf.ui].length = 2 ∧
    (∃ i j, i < j ∧
      ∃ (hi : i < scenePassOps.length) (hj : j < scenePassOps.length),
        scenePassOps.get ⟨i, hi⟩ =
          PassOp.drawModelInstanced ModelId.aquarium 1 ∧
        scenePassOps.get ⟨j, hj⟩ =
          PassOp.drawModelInstanced ModelId.fish NUM_INSTANCES) := by
  refine ⟨rfl, rfl, rfl, rfl, 1, 5, by omega, by decide, by decide, rfl, rfl⟩

/-- Witness for C5 at the concrete startup state. -/
theorem C5_acquire_error_policy_witness :
    GState.render cgsW (Except.error GSurfaceError.Outdated) =
      Except.error GSurfaceError.Outdated ∧
    (redrawTick cgsW (Except.error GSurfaceError.Outdated)).events = [] ∧
    redrawTick cgsW (Except.error GSurfaceError.Lost) =
      { state := (GState.resize cgsW cgsW.size).1
        resizeCalls := [cgsW.size]
        control := GControlFlow.continueLoop
        logged := []
        events := [] } ∧
    redrawTick cgsW (Except.error GSurfaceError.OutOfMemory) =
      { state := cgsW
        resizeCalls := []
        control := GControlFlow.exitLoop
        logged := []
        events := [] } ∧
    redrawTick cgsW (Except.error GSurfaceError.Outdated) =
      { state := cgsW
        resizeCalls := []
        control := GControlFlow.continueLoop
        logged := [GSurfaceError.Outdated]
        events := [] } ∧
    redrawTick cgsW (Except.error GSurfaceError.Timeout) =
      { state := cgsW
        resizeCalls := []
        control := GControlFlow.continueLoop
        logged := [GSurfaceError.Timeout]
        events := [] } :=
  C5_acquire_error_policy cgsW GSurfaceError.Outdated

/-- Witness for C6 at the concrete startup state. -/
theorem C6_render_submit_ordering_witness :
    GState.render cgsW (Except.ok ()) =
      Except.ok
        [RenderEvent.submit [CommandBuf.scene scenePassOps, CommandBuf.ui],
         RenderEvent.present] ∧
    ((redrawTick cgsW (Except.ok ())).events.filter
        (fun ev => ev.isSubmit)).length = 1 ∧
    (redrawTick cgsW (Except.ok ())).events =
      [RenderEvent.submit [CommandBuf.scene scenePassOps, CommandBuf.ui],
       RenderEvent.present] ∧
    [CommandBuf.scene scenePassOps, CommandBuf.ui].length = 2 ∧
    (∃ i j, i < j ∧
      ∃ (hi : i < scenePassOps.length) (hj : j < scenePassOps.length),
        scenePassOps.get ⟨i, hi⟩ =
          PassOp.drawModelInstanced ModelId.aquarium 1 ∧
        scenePassOps.get ⟨j, hj⟩ =
          PassOp.drawModelInstanced ModelId.fish NUM_INSTANCES) :=
  C6_render_submit_ordering cgsW

